import Mathlib

/-!
Shallow embedding of the staff graded assignment block
(src/edx_sga/edx_sga.py, class StaffGradedAssignmentXBlock).

Mapping from the Python source to the Lean model:

- The per-student XBlock user_state fields uploaded_sha1, uploaded_filename,
  uploaded_mimetype, uploaded_timestamp and score (lines 62-92) become the
  structure Record.  Field assignment in a handler is modelled as a record
  update that takes effect immediately, as the assignment statement does.
- django default_storage is modelled as an association list Store from path
  strings to byte lists, with storageExists for default_storage.exists,
  storageOpen for default_storage.open (raising IOError when the path is
  missing) and save_if_not_exists for the guarded save of lines 189-190.
- hashlib.sha1 is an external library; _get_sha1 (lines 238-244) reads the
  whole stream in 8 KiB blocks, feeds it to the digest and rewinds the
  stream, so its result is a pure function of the byte content.  The digest
  function is therefore passed in as an explicit argument sha1hex.
- mimetypes.guess_type is an external library lookup of the lowercased
  filename extension in a finite table, returning None for an unknown
  extension; it is modelled by guess_type over a representative table.
- os.path.splitext (used at line 234) is modelled by splitextExt, following
  the stdlib algorithm: the extension starts at the last dot of the basename
  unless the basename consists only of leading dots up to that position.
- Python exceptions are modelled by the error type Err and handlers return
  Except Err results; execution of a handler body is a chain of matches that
  stops at the first error, as exception propagation does.
- StudentModule.objects.get (line 212) is modelled by objectsGet over a list
  of StudentModuleRow, raising doesNotExist when the primary key is absent;
  indexing into the parsed state dict, state[key], is modelled by dictGet,
  raising keyError when the key is absent.
-/

namespace EdxSga

/-- Python exceptions that the modelled code paths can raise.
attributeError covers both the undefined self.store_file attribute at
line 186 and os.path.splitext applied to None; assertionError is the
failed assert at line 232; typeError is the concatenation of a string
with None at line 233; keyError is a missing dict or params key;
doesNotExist is the django ObjectDoesNotExist from objects.get;
ioError is what default_storage.open raises for a missing path. -/
inductive Err where
  | attributeError
  | assertionError
  | typeError
  | keyError
  | doesNotExist
  | ioError
deriving DecidableEq

/-- Byte content of an uploaded file, one Nat per byte. -/
abbrev Bytes := List Nat

/-- The external blob store: association list from path to stored bytes. -/
abbrev Store := List (String × Bytes)

/-- The per-student user_state fields of the block (source lines 62-92).
All four upload fields default to None; score defaults to 0. -/
structure Record where
  uploaded_sha1 : Option String
  uploaded_filename : Option String
  uploaded_mimetype : Option String
  uploaded_timestamp : Option Nat
  score : Rat
deriving DecidableEq

/-- A freshly created record: every upload field is None, score is 0. -/
def initRecord : Record := ⟨none, none, none, none, 0⟩

/-- The uploaded file part of the request: client filename and byte content. -/
structure UploadFile where
  name : String
  content : Bytes
deriving DecidableEq

/-- A webob download response: body bytes, content_type (None is allowed)
and the content_disposition header (source lines 205-208). -/
structure Response where
  body : Bytes
  content_type : Option String
  content_disposition : String
deriving DecidableEq

/-- default_storage.exists: is some blob stored at this path. -/
def storageExists (st : Store) (p : String) : Bool :=
  st.any (fun e => e.1 == p)

/-- default_storage.open: the bytes at the path, or none (IOError) if absent. -/
def storageOpen (st : Store) (p : String) : Option Bytes :=
  match st with
  | [] => none
  | (q, b) :: t => if q = p then some b else storageOpen t p

/-- The guarded save of source lines 189-190: if a blob already exists at
the path the store is left alone, otherwise the bytes are persisted. -/
def save_if_not_exists (st : Store) (p : String) (b : Bytes) : Store :=
  if storageExists st p = true then st else (p, b) :: st

/-- Character-level model of str.startswith for ASCII strings. -/
def strStartsWith (s pre : String) : Bool :=
  pre.data.isPrefixOf s.data

/-- Character-level model of the slice s[n:]. -/
def strDrop (s : String) (n : Nat) : String :=
  String.mk (s.data.drop n)

/-- Index of the last occurrence of a character in a list, if any. -/
def lastIdxOf (c : Char) : List Char → Option Nat
  | [] => none
  | x :: xs =>
    match lastIdxOf c xs with
    | some i => some (i + 1)
    | none => if x = c then some 0 else none

/-- Index at which the basename starts: one past the last slash, else 0. -/
def extStart (cs : List Char) : Nat :=
  match lastIdxOf '/' cs with
  | none => 0
  | some si => si + 1

/-- Extension part of os.path.splitext: everything from the last dot of the
basename, dot included, unless every character of the basename before that
dot is itself a dot, in which case the extension is empty. -/
def splitextExt (p : String) : String :=
  match lastIdxOf '.' p.data with
  | none => ""
  | some di =>
    if di < extStart p.data then ""
    else if ((p.data.drop (extStart p.data)).take (di - extStart p.data)).any
        (fun c => c != '.') then
      String.mk (p.data.drop di)
    else ""

/-- ASCII lowercasing of one character, as the mimetypes module applies to
the extension before its table lookup. -/
def asciiLower (c : Char) : Char :=
  if 'A' ≤ c ∧ c ≤ 'Z' then Char.ofNat (c.toNat + 32) else c

/-- Representative entries of the stdlib mimetypes extension table. -/
def mimeTable : List (String × String) :=
  [(".txt", "text/plain"), (".pdf", "application/pdf"),
   (".png", "image/png"), (".jpg", "image/jpeg"), (".jpeg", "image/jpeg"),
   (".gif", "image/gif"), (".html", "text/html"), (".htm", "text/html"),
   (".csv", "text/csv"), (".doc", "application/msword"),
   (".zip", "application/zip")]

/-- Model of mimetypes.guess_type(name)[0] for a plain filename: look the
lowercased extension up in the finite table; an unknown extension gives
none (the Python call returns (None, None)), and the lookup is total, it
never raises. -/
def guess_type (name : String) : Option String :=
  mimeTable.lookup (String.mk ((splitextExt name).data.map asciiLower))

/-- Model of _file_storage_path (source lines 231-235).  The url argument is
self.location.url() for self-uploads and module.module_state_key for staff
downloads.  The assert at line 232 fires (assertionError) unless the url
starts with the i4x:// scheme marker; then line 233 concatenates url[6:],
a slash and the sha1 (typeError when the sha1 is None), and line 234
appends the splitext extension of the filename (attributeError when the
filename is None, since None has no rfind). -/
def file_storage_path (url : String) (sha1 filename : Option String) :
    Except Err String :=
  if strStartsWith url "i4x://" then
    match sha1 with
    | none => .error .typeError
    | some s =>
      match filename with
      | none => .error .attributeError
      | some fn => .ok (strDrop url 6 ++ "/" ++ s ++ splitextExt fn)
  else .error .assertionError

/-- Python truthiness of an optional string: None and the empty string are
falsy, every other string is truthy (the test at source line 120). -/
def truthy : Option String → Bool
  | none => false
  | some s => !s.data.isEmpty

/-- Model of student_state (source lines 115-129): the JSON body is
none for uploaded: null, and some filename for uploaded: {filename}.
The result carries nothing but the filename. -/
def student_state (r : Record) : Option (Option String) :=
  if truthy r.uploaded_sha1 then some r.uploaded_filename else none

/-- Line 182: self.uploaded_sha1 = _get_sha1(upload.file).  _get_sha1
digests the full content in 8 KiB blocks and rewinds the stream, so the
assigned value is sha1hex of the byte content. -/
def step1 (sha1hex : Bytes → String) (f : UploadFile) (r : Record) : Record :=
  { r with uploaded_sha1 := some (sha1hex f.content) }

/-- Line 183: self.uploaded_filename = upload.file.name. -/
def step2 (f : UploadFile) (r : Record) : Record :=
  { r with uploaded_filename := some f.name }

/-- Line 184: self.uploaded_mimetype = mimetypes.guess_type(upload.file.name)[0]. -/
def step3 (f : UploadFile) (r : Record) : Record :=
  { r with uploaded_mimetype := guess_type f.name }

/-- Line 185: self.uploaded_timestamp = _now(); the ambient clock is the
argument now. -/
def step4 (now : Nat) (r : Record) : Record :=
  { r with uploaded_timestamp := some now }

/-- The successive (record, store) states of one upload_assignment call
(source lines 180-191): the state before the handler runs, then the state
after each of the four field assignments of lines 182-185.  The store
component never changes, because execution raises at line 186 before any
storage call. -/
def uploadTrace (sha1hex : Bytes → String) (now : Nat) (f : UploadFile)
    (r : Record) (st : Store) : List (Record × Store) :=
  [(r, st),
   (step1 sha1hex f r, st),
   (step2 f (step1 sha1hex f r), st),
   (step3 f (step2 f (step1 sha1hex f r)), st),
   (step4 now (step3 f (step2 f (step1 sha1hex f r))), st)]

/-- Outcome of the upload handler: the returned value or exception, and the
final record and store states. -/
structure UploadOutcome where
  result : Except Err (Option (Option String))
  record : Record
  store : Store

/-- Model of upload_assignment (source lines 180-191).  A missing
params assignment entry raises keyError (line 181).  Otherwise the four
user_state fields are assigned in order (lines 182-185), and then line 186
calls self.store_file(upload.file): the class defines no attribute
store_file, so an attributeError is raised there.  Lines 187-190, the path
derivation and the guarded save, are never executed; the object saved
there would in any case be File(file), built from the stale builtin name
file rather than the uploaded stream.  The url argument models
self.location.url(), which only the dead lines 187-188 would read. -/
def upload_assignment (sha1hex : Bytes → String) (now : Nat) (url : String)
    (r : Record) (st : Store) (params : Option UploadFile) : UploadOutcome :=
  match params with
  | none => ⟨.error .keyError, r, st⟩
  | some f =>
    ⟨.error .attributeError,
     step4 now (step3 f (step2 f (step1 sha1hex f r))), st⟩

/-- Model of download (source lines 201-208): open the path in the blob
store (ioError when absent), then build the response; the
content_disposition concatenation raises typeError when the filename is
None.  The body is the concatenation of the 8 KiB chunks the response
iterator produces, hence the full stored bytes. -/
def download (st : Store) (path : String) (mimetype filename : Option String) :
    Except Err Response :=
  match storageOpen st path with
  | none => .error .ioError
  | some b =>
    match filename with
    | none => .error .typeError
    | some fn => .ok ⟨b, mimetype, "attachment; filename=" ++ fn⟩

/-- Model of download_assignment (source lines 193-199): derive the path
from the own record of the caller and delegate to download. -/
def download_assignment (url : String) (r : Record) (st : Store) :
    Except Err Response :=
  match file_storage_path url r.uploaded_sha1 r.uploaded_filename with
  | .error e => .error e
  | .ok path => download st path r.uploaded_mimetype r.uploaded_filename

/-- Entries of the parsed per-student state dict json.loads(module.state)
that staff_download indexes; none models an absent key. -/
structure ModuleState where
  uploaded_sha1 : Option String
  uploaded_filename : Option String
  uploaded_mimetype : Option String
deriving DecidableEq

/-- One StudentModule row: primary key, module_state_key (the i4x:// url of
the block) and the parsed state. -/
structure StudentModuleRow where
  pk : Nat
  module_state_key : String
  state : ModuleState
deriving DecidableEq

/-- StudentModule.objects.get(pk=...): the row with the given primary key,
or the doesNotExist exception. -/
def objectsGet (db : List StudentModuleRow) (pk : Nat) :
    Except Err StudentModuleRow :=
  match db.find? (fun m => m.pk == pk) with
  | none => .error .doesNotExist
  | some m => .ok m

/-- Indexing state[key] into the parsed state dict: keyError when absent. -/
def dictGet {α : Type} (v : Option α) : Except Err α :=
  match v with
  | none => .error .keyError
  | some a => .ok a

/-- Model of staff_download (source lines 210-219).  The handler performs no
authorization check whatsoever: the is_staff flag of the ambient runtime
(the flag show_staff_grading_interface reads for the view, line 226) is
never consulted, which the unused argument makes explicit.  The handler
fetches the row by primary key, indexes the state dict for the sha1 and
filename, derives the path, indexes the mimetype, and downloads. -/
def staff_download (is_staff : Bool) (db : List StudentModuleRow) (st : Store)
    (module_id : Nat) : Except Err Response :=
  match objectsGet db module_id with
  | .error e => .error e
  | .ok m =>
    match dictGet m.state.uploaded_sha1 with
    | .error e => .error e
    | .ok s =>
      match dictGet m.state.uploaded_filename with
      | .error e => .error e
      | .ok fn =>
        match file_storage_path m.module_state_key (some s) (some fn) with
        | .error e => .error e
        | .ok path =>
          match dictGet m.state.uploaded_mimetype with
          | .error e => .error e
          | .ok mt => download st path (some mt) (some fn)

/-- The record states a single student can reach: the implicit zero-valued
record, and the result of any upload_assignment call on a reachable state
(the only code that mutates the upload fields; the error at line 186 does
not roll the assignments of lines 182-185 back). -/
inductive ReachableRecord : Record → Prop where
  | init : ReachableRecord initRecord
  | upload (sha1hex : Bytes → String) (now : Nat) (f : UploadFile) (r : Record) :
      ReachableRecord r →
      ReachableRecord (step4 now (step3 f (step2 f (step1 sha1hex f r))))

/-- One concrete upload whose filename has an extension outside the MIME
table, reached from the zero-valued record. -/
def unknownExtUpload : UploadOutcome :=
  upload_assignment (fun _ => "h") 0 "i4x://c" initRecord []
    (some ⟨"notes.xyz", [1]⟩)

/-- Helper: lastIdxOf really points at an occurrence of the character. -/
theorem lastIdxOf_head {c : Char} : ∀ (l : List Char) (i : Nat),
    lastIdxOf c l = some i → l[i]? = some c := by
  intro l
  induction l with
  | nil => intro i h; simp [lastIdxOf] at h
  | cons x xs ih =>
    intro i h
    unfold lastIdxOf at h
    cases hx : lastIdxOf c xs with
    | some j =>
      rw [hx] at h
      cases h
      simpa using ih j hx
    | none =>
      rw [hx] at h
      by_cases hc : x = c
      · simp [hc] at h
        subst hc
        cases h
        simp
      · simp [hc] at h

/-- Helper: the splitext extension is empty or begins with the dot. -/
theorem splitextExt_empty_or_dot (p : String) :
    (splitextExt p).data = [] ∨ (splitextExt p).data.head? = some '.' := by
  unfold splitextExt
  cases hd : lastIdxOf '.' p.data with
  | none => left; rfl
  | some di =>
    by_cases h1 : di < extStart p.data
    · left; simp [h1]
    · by_cases h2 : ((p.data.drop (extStart p.data)).take (di - extStart p.data)).any
          (fun c => c != '.') = true
      · right
        simp [h1, h2]
        exact lastIdxOf_head p.data di hd
      · left
        simp [h1, h2]

/-- Helper: the guarded save of lines 189-190 is idempotent. -/
theorem save_idem : ∀ (st : Store) (p : String) (b : Bytes),
    save_if_not_exists (save_if_not_exists st p b) p b = save_if_not_exists st p b := by
  intro st p b
  by_cases h : storageExists st p = true
  · simp [save_if_not_exists, h]
  · have hc : storageExists ((p, b) :: st) p = true := by
      simp [storageExists]
    simp [save_if_not_exists, h, hc]

end EdxSga

namespace EdxSga

/-- Claim C1: the claim says the record fields are updated only after the
blob save has succeeded, never before.  The code does the opposite: across
every intermediate state of an upload the store component never changes
(so no blob is ever saved), while already the second state of the trace,
right after line 182, has the record referencing the freshly computed
content hash. -/
theorem upload_mutates_record_before_any_blob_save
    (sha1hex : Bytes → String) (now : Nat) (f : UploadFile)
    (r : Record) (st : Store) :
    (uploadTrace sha1hex now f r st).map Prod.snd = [st, st, st, st, st] ∧
    ((uploadTrace sha1hex now f r st)[1]?).map (fun p => p.1.uploaded_sha1)
      = some (some (sha1hex f.content)) :=
  ⟨rfl, rfl⟩

/-- Claim C1, evaluated at a concrete upload: file hw.txt with bytes
[104, 105] against the empty store; the hash is set from the second state
on while the store stays empty throughout. -/
theorem upload_mutates_record_before_any_blob_save_witness :
    (uploadTrace (fun _ => "h") 0 ⟨"hw.txt", [104, 105]⟩ initRecord []).map
        Prod.snd = [[], [], [], [], []] ∧
    ((uploadTrace (fun _ => "h") 0 ⟨"hw.txt", [104, 105]⟩ initRecord [])[1]?).map
        (fun p => p.1.uploaded_sha1) = some (some "h") :=
  upload_mutates_record_before_any_blob_save (fun _ => "h") 0
    ⟨"hw.txt", [104, 105]⟩ initRecord []

/-- Claim C2: the claim says a staff-download by a caller with a false
staff flag fails with AuthorizationError, and one referencing a missing
record fails with NotFoundError.  The handler performs no authorization
check at all: its result is identical for staff and non-staff callers, and
a non-staff caller downloading an existing submission receives the full
file response.  Only the missing-record half holds, via the DoesNotExist
exception of objects.get. -/
theorem staff_download_no_authorization_check :
    (∀ (db : List StudentModuleRow) (st : Store) (m : Nat),
       staff_download true db st m = staff_download false db st m) ∧
    staff_download false
      [⟨1, "i4x://c", ⟨some "h", some "f.txt", some "text/plain"⟩⟩]
      [("c/h.txt", [1, 2, 3])] 1 =
      .ok ⟨[1, 2, 3], some "text/plain", "attachment; filename=f.txt"⟩ ∧
    staff_download false
      [⟨1, "i4x://c", ⟨some "h", some "f.txt", some "text/plain"⟩⟩]
      [("c/h.txt", [1, 2, 3])] 2 = .error .doesNotExist :=
  ⟨fun _ _ _ => rfl, rfl, rfl⟩

/-- Claim C3: every upload_assignment call carrying a file raises an
attributeError (the class defines no store_file attribute, line 186),
leaves the blob store untouched, and leaves the record with all four
upload fields overwritten by the request-derived values. -/
theorem upload_assignment_raises_after_overwriting_record
    (sha1hex : Bytes → String) (now : Nat) (url : String)
    (r : Record) (st : Store) (f : UploadFile) :
    upload_assignment sha1hex now url r st (some f) =
      ⟨.error .attributeError,
       { r with uploaded_sha1 := some (sha1hex f.content),
                uploaded_filename := some f.name,
                uploaded_mimetype := guess_type f.name,
                uploaded_timestamp := some now }, st⟩ :=
  rfl

/-- Claim C3, evaluated at a concrete upload of hw.pdf at time 7. -/
theorem upload_assignment_raises_after_overwriting_record_witness :
    upload_assignment (fun _ => "h") 7 "i4x://c" initRecord []
        (some ⟨"hw.pdf", [1]⟩) =
      ⟨.error .attributeError,
       ⟨some "h", some "hw.pdf", some "application/pdf", some 7, 0⟩, []⟩ :=
  upload_assignment_raises_after_overwriting_record (fun _ => "h") 7 "i4x://c"
    initRecord [] ⟨"hw.pdf", [1]⟩

/-- Claim C4: the claim says uploading then immediately self-downloading
returns byte-identical content with the original filename.  Instead the
upload raises an attributeError having stored no blob, and the immediate
self-download of the same student then raises an ioError from
default_storage.open, so no content is returned at all. -/
theorem upload_then_self_download_fails
    (sha1hex : Bytes → String) (now : Nat) (f : UploadFile) (r : Record) :
    (upload_assignment sha1hex now "i4x://c" r [] (some f)).result
        = .error .attributeError ∧
    (upload_assignment sha1hex now "i4x://c" r [] (some f)).store = [] ∧
    download_assignment "i4x://c"
        (upload_assignment sha1hex now "i4x://c" r [] (some f)).record
        (upload_assignment sha1hex now "i4x://c" r [] (some f)).store
      = .error .ioError :=
  ⟨rfl, rfl, rfl⟩

/-- Claim C4, evaluated at a concrete upload of a.txt with bytes
[1, 2, 3]. -/
theorem upload_then_self_download_fails_witness :
    (upload_assignment (fun _ => "h") 0 "i4x://c" initRecord []
        (some ⟨"a.txt", [1, 2, 3]⟩)).result = .error .attributeError ∧
    (upload_assignment (fun _ => "h") 0 "i4x://c" initRecord []
        (some ⟨"a.txt", [1, 2, 3]⟩)).store = [] ∧
    download_assignment "i4x://c"
        (upload_assignment (fun _ => "h") 0 "i4x://c" initRecord []
          (some ⟨"a.txt", [1, 2, 3]⟩)).record
        (upload_assignment (fun _ => "h") 0 "i4x://c" initRecord []
          (some ⟨"a.txt", [1, 2, 3]⟩)).store = .error .ioError :=
  upload_then_self_download_fails (fun _ => "h") 0 ⟨"a.txt", [1, 2, 3]⟩
    initRecord

/-- Claim C5: the claim says a self-download on a record with an empty or
unset contentHash fails with NoSubmissionError.  The code instead raises a
typeError when the hash is None (line 233 concatenates None into the
path), and an ioError from the missing blob when the hash is the empty
string; no NoSubmissionError exists anywhere in the code. -/
theorem self_download_without_submission_type_error :
    (∀ (r : Record) (st : Store), r.uploaded_sha1 = none →
       download_assignment "i4x://c" r st = .error .typeError) ∧
    download_assignment "i4x://c" ⟨some "", some "f.txt", none, none, 0⟩ []
      = .error .ioError := by
  refine ⟨?_, rfl⟩
  intro r st h
  unfold download_assignment
  rw [h]
  rfl

/-- Claim C5, evaluated at the zero-valued record. -/
theorem self_download_without_submission_type_error_witness :
    download_assignment "i4x://c" initRecord [] = .error .typeError :=
  self_download_without_submission_type_error.1 initRecord [] rfl

/-- Claim C6: the claim says saving the same path and bytes twice leaves
exactly one blob with the second call a no-op, and that two students
uploading byte-identical files produce exactly one stored blob and two
distinct records.  The guarded save of lines 189-190, as written, is
indeed idempotent (first conjunct), but upload never reaches it: after
both students upload the identical file a.txt, the store holds zero blobs,
not one, while both records are populated and distinct. -/
theorem dedup_save_idempotent_but_never_executed :
    (∀ (st : Store) (p : String) (b : Bytes),
       save_if_not_exists (save_if_not_exists st p b) p b
         = save_if_not_exists st p b) ∧
    (upload_assignment (fun _ => "h") 0 "i4x://c" initRecord []
        (some ⟨"a.txt", [1, 2, 3]⟩)).store = [] ∧
    (upload_assignment (fun _ => "h") 1 "i4x://c" initRecord
        (upload_assignment (fun _ => "h") 0 "i4x://c" initRecord []
          (some ⟨"a.txt", [1, 2, 3]⟩)).store
        (some ⟨"a.txt", [1, 2, 3]⟩)).store = [] ∧
    (upload_assignment (fun _ => "h") 0 "i4x://c" initRecord []
        (some ⟨"a.txt", [1, 2, 3]⟩)).record.uploaded_sha1 = some "h" ∧
    (upload_assignment (fun _ => "h") 1 "i4x://c" initRecord
        (upload_assignment (fun _ => "h") 0 "i4x://c" initRecord []
          (some ⟨"a.txt", [1, 2, 3]⟩)).store
        (some ⟨"a.txt", [1, 2, 3]⟩)).record.uploaded_sha1 = some "h" ∧
    (upload_assignment (fun _ => "h") 0 "i4x://c" initRecord []
        (some ⟨"a.txt", [1, 2, 3]⟩)).record ≠
      (upload_assignment (fun _ => "h") 1 "i4x://c" initRecord
        (upload_assignment (fun _ => "h") 0 "i4x://c" initRecord []
          (some ⟨"a.txt", [1, 2, 3]⟩)).store
        (some ⟨"a.txt", [1, 2, 3]⟩)).record := by
  refine ⟨save_idem, rfl, rfl, rfl, rfl, ?_⟩
  intro h
  exact absurd (congrArg Record.uploaded_timestamp h) (by decide)

/-- Claim C7, counterexample: a reachable record (one upload of notes.xyz,
an extension outside the MIME table, from the zero-valued record) has its
contentHash set while its mimeType is unset, so the claimed four-way
all-or-nothing iff fails on a reachable state. -/
theorem record_invariant_counterexample :
    ReachableRecord unknownExtUpload.record ∧
    ¬ (unknownExtUpload.record.uploaded_sha1.isSome = true ↔
        (unknownExtUpload.record.uploaded_filename.isSome = true ∧
         unknownExtUpload.record.uploaded_mimetype.isSome = true ∧
         unknownExtUpload.record.uploaded_timestamp.isSome = true)) := by
  constructor
  · exact ReachableRecord.upload (fun _ => "h") 0 ⟨"notes.xyz", [1]⟩ initRecord
      ReachableRecord.init
  · decide

/-- Claim C7 as amended: in every reachable record state the contentHash is
set iff filename and uploadedAt are set, and mimeType is set only if the
contentHash is set; mimeType may stay unset after an upload whose filename
extension is unknown. -/
theorem record_invariant_amended (r : Record) (h : ReachableRecord r) :
    (r.uploaded_sha1.isSome = true ↔
      (r.uploaded_filename.isSome = true ∧ r.uploaded_timestamp.isSome = true)) ∧
    (r.uploaded_mimetype.isSome = true → r.uploaded_sha1.isSome = true) := by
  induction h with
  | init => simp [initRecord]
  | upload sha1hex now f r hr ih => simp [step1, step2, step3, step4]

/-- Claim C7 amended, evaluated at the zero-valued record. -/
theorem record_invariant_amended_witness :
    (initRecord.uploaded_sha1.isSome = true ↔
      (initRecord.uploaded_filename.isSome = true ∧
       initRecord.uploaded_timestamp.isSome = true)) ∧
    (initRecord.uploaded_mimetype.isSome = true →
      initRecord.uploaded_sha1.isSome = true) :=
  record_invariant_amended initRecord ReachableRecord.init

/-- Claim C8, counterexample: the filename notes.xyz has an extension not
in the MIME table, and the recorded mimeType after its upload is None, not
the generic octet-stream type the claim requires. -/
theorem unknown_extension_counterexample :
    guess_type "notes.xyz" = none ∧
    (upload_assignment (fun _ => "h") 0 "i4x://c" initRecord []
        (some ⟨"notes.xyz", [1]⟩)).record.uploaded_mimetype = none ∧
    (upload_assignment (fun _ => "h") 0 "i4x://c" initRecord []
        (some ⟨"notes.xyz", [1]⟩)).record.uploaded_mimetype ≠
      some "application/octet-stream" := by
  refine ⟨rfl, rfl, ?_⟩
  decide

/-- Claim C8 as amended: for every uploaded filename whose extension the
MIME table does not recognize, the recorded mimeType is None (unset); the
derivation is a total lookup and never raises. -/
theorem unknown_extension_mimetype_none
    (sha1hex : Bytes → String) (now : Nat) (url : String)
    (r : Record) (st : Store) (f : UploadFile)
    (h : guess_type f.name = none) :
    (upload_assignment sha1hex now url r st (some f)).record.uploaded_mimetype
      = none :=
  h

/-- Claim C8 amended, evaluated at an upload of data.qqq. -/
theorem unknown_extension_mimetype_none_witness :
    (upload_assignment (fun _ => "deadbeef") 0 "i4x://c" initRecord []
        (some ⟨"data.qqq", [0]⟩)).record.uploaded_mimetype = none :=
  unknown_extension_mimetype_none (fun _ => "deadbeef") 0 "i4x://c" initRecord []
    ⟨"data.qqq", [0]⟩ (by decide)

/-- Claim C9, counterexample: for a well-formed scopeId the derived path is
not the concatenation of the scopeId, a separator, the hash and the
extension: the six-character scheme marker of the scopeId is stripped
first. -/
theorem storage_path_counterexample :
    file_storage_path "i4x://org/2013/hw" (some "abc") (some "f.txt")
      = .ok "org/2013/hw/abc.txt" ∧
    "org/2013/hw/abc.txt" ≠ "i4x://org/2013/hw" ++ "/" ++ "abc" ++ ".txt" := by
  refine ⟨rfl, ?_⟩
  decide

/-- Claim C9 as amended: for a scopeId starting with the i4x:// scheme
marker, the path is deterministically the concatenation of the scopeId
with the marker stripped, a separator, the hash, and the splitext
extension of the filename, which is empty or begins with its leading dot;
a scopeId that is empty or lacks the marker fails the assertion. -/
theorem storage_path_amended (url sha1 fn : String) :
    file_storage_path url (some sha1) (some fn) =
      (if strStartsWith url "i4x://" then
        .ok (strDrop url 6 ++ "/" ++ sha1 ++ splitextExt fn)
      else .error .assertionError) ∧
    ((splitextExt fn).data = [] ∨ (splitextExt fn).data.head? = some '.') :=
  ⟨rfl, splitextExt_empty_or_dot fn⟩

/-- Claim C9 amended, evaluated at scopeId i4x://c, hash h, filename
f.txt, together with one malformed scopeId. -/
theorem storage_path_amended_witness :
    file_storage_path "i4x://c" (some "h") (some "f.txt") = .ok "c/h.txt" ∧
    ((splitextExt "f.txt").data = [] ∨
      (splitextExt "f.txt").data.head? = some '.') :=
  storage_path_amended "i4x://c" "h" "f.txt"

/-- Claim C10: the student-facing projection is None exactly when the
contentHash is falsy (None or empty), is the filename alone when the
contentHash is set, and depends on nothing but the truthiness of the
contentHash and the filename, so it can leak neither the hash value nor
the storage path. -/
theorem student_state_projection_spec :
    (∀ r : Record, truthy r.uploaded_sha1 = false → student_state r = none) ∧
    (∀ r : Record, truthy r.uploaded_sha1 = true →
       student_state r = some r.uploaded_filename) ∧
    (∀ r₁ r₂ : Record, truthy r₁.uploaded_sha1 = truthy r₂.uploaded_sha1 →
       r₁.uploaded_filename = r₂.uploaded_filename →
       student_state r₁ = student_state r₂) := by
  refine ⟨?_, ?_, ?_⟩
  · intro r h; simp [student_state, h]
  · intro r h; simp [student_state, h]
  · intro r₁ r₂ h1 h2; simp [student_state, h1, h2]

/-- Claim C10, evaluated at the zero-valued record and at a populated
record. -/
theorem student_state_projection_spec_witness :
    student_state initRecord = none ∧
    student_state ⟨some "h", some "f.txt", none, none, 0⟩ = some (some "f.txt") :=
  ⟨student_state_projection_spec.1 initRecord (by decide),
   student_state_projection_spec.2.1
     ⟨some "h", some "f.txt", none, none, 0⟩ (by decide)⟩

end EdxSga
